import Mathlib

/-!
# Verification of the vsgroup `cdr_kafka` repository

This development embeds the repository's code in Lean 4 and settles the
frozen claims about it.

The repository ships three C files:

* `src/asterisk/kafka.h` — the public interface of the Kafka client
  (`res_kafka`).  The implementation of that client is not part of the
  repository's sources, so every definition concerning producers,
  consumers, subscriptions, the connection registry, the admin task
  queue and topic administration is *modelled from the spec*
  (doc comments below say so explicitly).
* `src/cdr_kafka.c` — the CDR backend.  `cdr_get_key_value`,
  `kafka_cdr_log` and the configuration structure are embedded directly
  from that source.
* `src/test_cdr_kafka.c` — tests, used as corroborating evidence.

Machine integers (`int`, `int32_t`, `int64_t`, `size_t`) are modelled as
`Int`/`Nat`; no arithmetic in the verified fragment approaches overflow.
C strings are `String` (a `NULL` pointer is `Option.none` where the code
distinguishes it from an empty string).  Fallible operations return an
explicit result code paired with the successor state, as the C code does.
-/

/-! ## Spec-modelled Kafka client: admin task queue (`ensure_topic_async`) -/

/-- Modelled from the spec: an `AdminTask` (§3) — the missing `res_kafka`
implementation's record of one queued topic-creation request: "target
Producer's Connection, topic name, desired partition count, desired
replication factor, enqueue timestamp". -/
structure AdminTask where
  connection : String
  topic : String
  numPartitions : Int
  replicationFactor : Int
  enqueuedAt : Nat
deriving DecidableEq, Repr

/-- Modelled from the spec: the Admin Task Queue (§4.4) of the missing
`res_kafka` implementation — a strict FIFO of `AdminTask` entries drained by
a single worker; it stops accepting tasks once shut down. -/
structure AdminQueue where
  tasks : List AdminTask
  shutdown : Bool
deriving DecidableEq, Repr

/-- Modelled from the spec: pushing a task onto the Admin Task Queue.
"`ensure_topic_async` may reject if the underlying processor has been shut
down" (§4.4); otherwise the task is appended in FIFO order. -/
def AdminQueue.push (q : AdminQueue) (t : AdminTask) : Option AdminQueue :=
  if q.shutdown then none
  else some { q with tasks := q.tasks ++ [t] }

/-- Modelled from the spec: `ast_kafka_ensure_topic_async` (§4.2, and
`src/asterisk/kafka.h:206`), whose implementation is not in the repository.
"Validates arguments locally (non-empty topic, positive
partitions/replication), constructs an AdminTask, and enqueues it on the
Admin Task Queue.  Returns success as soon as the task is queued, before any
network interaction occurs.  Rejects with an error only for invalid local
arguments or if the queue itself cannot accept the task."  `conn` is the
producer's connection name, `now` the enqueue timestamp; the result code is
`0` for success and `-1` for failure, as in `kafka.h`.  No broker state
appears at all: success is decided strictly before any network
interaction. -/
def ast_kafka_ensure_topic_async (conn : String) (topic : String)
    (numPartitions replicationFactor : Int) (now : Nat)
    (q : AdminQueue) : Int × AdminQueue :=
  if topic = "" ∨ numPartitions ≤ 0 ∨ replicationFactor ≤ 0 then
    (-1, q)
  else
    match q.push ⟨conn, topic, numPartitions, replicationFactor, now⟩ with
    | some q2 => (0, q2)
    | none => (-1, q)

/-! ## Spec-modelled Kafka client: producing (`produce`, `produce_hdrs`) -/

/-- A key-value header pair, embedded from `struct ast_kafka_header`
(`src/asterisk/kafka.h:106`). -/
structure AstKafkaHeader where
  name : String
  value : String
deriving DecidableEq, Repr

/-- Modelled from the spec: one outbound message as handed to the broker
client by the missing `res_kafka` implementation — topic, optional key,
payload and an ordered header list (§3 "Header"). -/
structure OutboundMessage where
  topic : String
  key : Option String
  payload : List UInt8
  headers : List AstKafkaHeader
deriving DecidableEq, Repr

/-- Modelled from the spec: the caller-visible state of a producer's
connection in the missing `res_kafka` implementation — whether the
connection is up, whether the local send queue is full, and the messages
accepted into the local send queue so far (§4.2 "produce ... returns
success once the message is accepted into the local send queue"; "Fails if
the underlying send queue is full or the connection is down"). -/
structure ProducerState where
  connectionUp : Bool
  sendQueueFull : Bool
  sent : List OutboundMessage
deriving DecidableEq, Repr

/-- Modelled from the spec: acceptance of one outbound message into the
local send queue (§4.2): fails (code `-1`, state unchanged) if the send
queue is full or the connection is down, else appends the message and
returns `0`. -/
def producerAccept (p : ProducerState) (m : OutboundMessage) :
    Int × ProducerState :=
  if p.connectionUp = false ∨ p.sendQueueFull = true then (-1, p)
  else (0, { p with sent := p.sent ++ [m] })

/-- Modelled from the spec: `ast_kafka_produce` (§4.2, and
`src/asterisk/kafka.h:94`), whose implementation is not in the repository.
Enqueues a message with no headers for asynchronous delivery. -/
def ast_kafka_produce (p : ProducerState) (topic : String)
    (key : Option String) (payload : List UInt8) : Int × ProducerState :=
  producerAccept p ⟨topic, key, payload, []⟩

/-- Modelled from the spec: `ast_kafka_produce_hdrs` (§4.2, and
`src/asterisk/kafka.h:128`), whose implementation is not in the repository.
"Behaves identically to `ast_kafka_produce` but also attaches key-value
headers to the message.  If `headers` is NULL or `header_count` is 0, no
headers are attached."  `headers = none` models a NULL header array;
`headerCount` models the `header_count` argument (the first `headerCount`
entries of the array are attached). -/
def ast_kafka_produce_hdrs (p : ProducerState) (topic : String)
    (key : Option String) (payload : List UInt8)
    (headers : Option (List AstKafkaHeader)) (headerCount : Nat) :
    Int × ProducerState :=
  let attached : List AstKafkaHeader :=
    match headers with
    | none => []
    | some hs => if headerCount = 0 then [] else hs.take headerCount
  producerAccept p ⟨topic, key, payload, attached⟩

/-! ## Spec-modelled Kafka client: synchronous topic administration -/

/-- Modelled from the spec: the broker-side state visible to
`ast_kafka_ensure_topic` in the missing `res_kafka` implementation —
whether the broker is reachable and which topics exist (§4.2
`ensure_topic`; §7 "transport error (broker unreachable ...) — surfaced to
the caller of `produce`/`ensure_topic`"). -/
structure BrokerState where
  reachable : Bool
  topics : List String
deriving DecidableEq, Repr

/-- Modelled from the spec: `ast_kafka_ensure_topic` (§4.2, and
`src/asterisk/kafka.h:188`), whose implementation is not in the repository.
Synchronously issues a create-topic request against the broker behind the
producer's connection: a transport error is surfaced as `-1`; otherwise it
"succeeds (no error) both when creation succeeds and when the topic already
exists — idempotent by design."  Partition count and replication factor are
used only on creation and do not affect the already-exists path. -/
def ast_kafka_ensure_topic (b : BrokerState) (topic : String)
    (numPartitions replicationFactor : Int) : Int × BrokerState :=
  if b.reachable = false then (-1, b)
  else if topic ∈ b.topics then (0, b)
  else (0, { b with topics := b.topics ++ [topic] })

/-! ## Spec-modelled Kafka client: connection registry -/

/-- Modelled from the spec: one entry of the named-connection configuration
table consumed by the missing `res_kafka` implementation — "connection name
→ broker list, security options, optional consumer group id" (§6); security
options are irrelevant to every claim and carried as an opaque string. -/
structure ConnConfig where
  brokers : List String
  securityOptions : String
  groupId : Option String
deriving DecidableEq, Repr

/-- Modelled from the spec: a live Connection of the missing `res_kafka`
implementation — "identity = name (string, unique key in the registry)"
plus its resolved configuration (§3). -/
structure Connection where
  name : String
  cfg : ConnConfig
deriving DecidableEq, Repr

/-- Modelled from the spec: the Connection Registry (§4.1) of the missing
`res_kafka` implementation — the configuration table plus the live
Connections created lazily so far. -/
structure Registry where
  config : List (String × ConnConfig)
  connections : List (String × Connection)
deriving DecidableEq, Repr

/-- Modelled from the spec: resolving a connection name against the
configuration table (first entry with the given name, §4.1). -/
def Registry.lookupConfig (r : Registry) (name : String) : Option ConnConfig :=
  (r.config.find? (fun p => p.1 = name)).map (fun p => p.2)

/-- Modelled from the spec: lazy Connection construction by the Registry
(§4.1): an already-live Connection of that name is reused, otherwise a new
one is created and recorded in the Registry. -/
def Registry.ensureConnection (r : Registry) (name : String)
    (cfg : ConnConfig) : Connection × Registry :=
  match r.connections.find? (fun p => p.1 = name) with
  | some p => (p.2, r)
  | none =>
    let c : Connection := ⟨name, cfg⟩
    (c, { r with connections := r.connections ++ [(name, c)] })

/-- Modelled from the spec: a Consumer Handle (§3) of the missing
`res_kafka` implementation — a reference to a Connection whose group id is
set. -/
structure ConsumerHandle where
  conn : Connection
  groupId : String
deriving DecidableEq, Repr

/-- Modelled from the spec: `ast_kafka_get_consumer` (§4.1, §6, and
`src/asterisk/kafka.h:146`), whose implementation is not in the repository.
Resolves the name against configuration; "if no configuration entry exists,
or (for consumers) no group id is configured, the call fails and returns an
absent-value signal (no connection established, no partial state left
behind)"; on success the (lazily created) Connection is wrapped in a
Consumer Handle. -/
def ast_kafka_get_consumer (r : Registry) (name : String) :
    Option ConsumerHandle × Registry :=
  match r.lookupConfig name with
  | none => (none, r)
  | some cfg =>
    match cfg.groupId with
    | none => (none, r)
    | some gid =>
      let cr := r.ensureConnection name cfg
      (some ⟨cr.1, gid⟩, cr.2)

/-! ## Spec-modelled Kafka client: consumer subscription and delivery -/

/-- Helper for topic-list parsing: splits a character list at commas.
`acc` holds the characters of the current segment in reverse. -/
def splitCommaAux : List Char → List Char → List String
  | [], acc => [String.mk acc.reverse]
  | c :: rest, acc =>
    if c = ',' then String.mk acc.reverse :: splitCommaAux rest []
    else splitCommaAux rest (c :: acc)

/-- Modelled from the spec: parsing of the comma-separated topic
specification (§3 "Subscription": "ordered set of topic names (parsed from
a comma-separated specification, must be non-empty after parse)").  Splits
at commas and drops empty segments; emptiness of the result is the
emptiness the subscribe contract tests. -/
def parseTopics (s : String) : List String :=
  (splitCommaAux s.data []).filter (fun t => t.isEmpty = false)

/-- Modelled from the spec: a Subscription (§3) of the missing `res_kafka`
implementation — the parsed topic names, a callback reference and the
opaque user context (callback and context are opaque to this layer and
modelled as numeric identities). -/
structure Subscription where
  topics : List String
  callbackId : Nat
  userdata : Nat
deriving DecidableEq, Repr

/-- Modelled from the spec: the per-consumer state of the missing
`res_kafka` implementation — at most one active Subscription, and whether
the poll thread has been started (§3, §4.3). -/
structure ConsumerState where
  sub : Option Subscription
  pollRunning : Bool
deriving DecidableEq, Repr

/-- Modelled from the spec: `ast_kafka_consumer_subscribe` (§4.3, and
`src/asterisk/kafka.h:161`), whose implementation is not in the repository.
"Parses the comma-separated topic list, replaces any existing Subscription,
and (if the poll thread is not already running) starts it.  Fails if
`topics` parses to an empty set or if the underlying join request fails."
`joinOk` is the environment's verdict on the underlying join request. -/
def ast_kafka_consumer_subscribe (st : ConsumerState) (topics : String)
    (callbackId userdata : Nat) (joinOk : Bool) : Int × ConsumerState :=
  let parsed := parseTopics topics
  if parsed = [] then (-1, st)
  else if joinOk = false then (-1, st)
  else (0, { sub := some ⟨parsed, callbackId, userdata⟩, pollRunning := true })

/-- One message pulled from the broker client by the poll loop (topic,
partition, offset, payload, optional key), per the callback signature in
`src/asterisk/kafka.h:65`. -/
structure IncomingMessage where
  topic : String
  partition : Int
  offset : Int
  payload : List UInt8
  key : Option String
deriving DecidableEq, Repr

/-- One callback invocation performed by the poll loop: which callback and
user context were used and the message data passed, per
`src/asterisk/kafka.h:65`. -/
structure CallbackInvocation where
  callbackId : Nat
  userdata : Nat
  topic : String
  partition : Int
  offset : Int
  payload : List UInt8
  key : Option String
deriving DecidableEq, Repr

/-- Modelled from the spec: delivery of one pulled message by the poll loop
(§2, §4.3), reading the consumer's active Subscription — the registered
callback is invoked exactly when a Subscription is active and the message's
topic belongs to it ("callback invocations only for messages on topics" of
the subscription, §8; with no active Subscription the loop "delivers
nothing further", §4.3). -/
def deliverMessage (st : ConsumerState) (m : IncomingMessage) :
    List CallbackInvocation :=
  match st.sub with
  | none => []
  | some s =>
    if m.topic ∈ s.topics then
      [⟨s.callbackId, s.userdata, m.topic, m.partition, m.offset, m.payload, m.key⟩]
    else []

/-- Modelled from the spec: the invocations the poll loop performs for a
sequence of pulled messages after the consumer state has settled (no
further subscribe/unsubscribe), in poll order. -/
def deliverAll (st : ConsumerState) (msgs : List IncomingMessage) :
    List CallbackInvocation :=
  msgs.flatMap (deliverMessage st)

/-! ## `src/cdr_kafka.c`: data model

The CDR backend is embedded directly from the source.  External Asterisk
helpers that the backend calls (`ast_strlen_zero`, `strcasecmp`,
`ast_json_*`, `ast_cdr_disp2str`, `ast_channel_amaflags2string`) are given
small faithful definitions; the claims depend only on which JSON members
exist and on data flow, never on the rendering of these helper values. -/

/-- A `struct timeval`, as stored in `ast_cdr.start/answer/end`. -/
structure Timeval where
  sec : Int
  usec : Int
deriving DecidableEq, Repr

/-- The fields of `struct ast_cdr` used by `src/cdr_kafka.c` (the C
struct's `end` field is `endTime` here because `end` is reserved in Lean).
`varshead` is the list of user CDR variables (name, value) traversed by
`kafka_cdr_log`. -/
structure AstCdr where
  clid : String
  src : String
  dst : String
  dcontext : String
  channel : String
  dstchannel : String
  lastapp : String
  lastdata : String
  start : Timeval
  answer : Timeval
  endTime : Timeval
  duration : Int
  billsec : Int
  disposition : Int
  accountcode : String
  amaflags : Int
  peeraccount : String
  linkedid : String
  sequence : Int
  uniqueid : String
  userfield : String
  tenantid : String
  varshead : List (String × String)
deriving DecidableEq, Repr

/-- Asterisk's `ast_strlen_zero`: true for a NULL or empty string.  A C
`const char *` that may be NULL is an `Option String`. -/
def ast_strlen_zero : Option String → Bool
  | none => true
  | some s => s.isEmpty

/-- ASCII lowering of one character, as C's `tolower` does in the default
locale. -/
def charLower (c : Char) : Char :=
  if 65 ≤ c.toNat ∧ c.toNat ≤ 90 then Char.ofNat (c.toNat + 32) else c

/-- ASCII lowering of a whole string. -/
def strLower (s : String) : String := String.mk (s.data.map charLower)

/-- `!strcasecmp(a, b)` — ASCII case-insensitive string equality, as used
by `cdr_get_key_value`. -/
def strcaseEq (a b : String) : Bool := strLower a == strLower b

/-- Embedded from `src/cdr_kafka.c:234` (`cdr_get_key_value`): extract the
value of a named CDR field for use as the Kafka key.  Returns `none` for an
empty/NULL field name or an unrecognised one; the CDR is only read (the
embedding is a pure function of the record).  The branch structure mirrors
the C `if`/`else if` chain exactly. -/
def cdr_get_key_value (cdr : AstCdr) (field_name : Option String) :
    Option String :=
  if ast_strlen_zero field_name then none
  else
    let f := field_name.getD ""
    if strcaseEq f "linkedid" then some cdr.linkedid
    else if strcaseEq f "uniqueid" then some cdr.uniqueid
    else if strcaseEq f "channel" then some cdr.channel
    else if strcaseEq f "dstchannel" then some cdr.dstchannel
    else if strcaseEq f "accountcode" then some cdr.accountcode
    else if strcaseEq f "src" then some cdr.src
    else if strcaseEq f "dst" then some cdr.dst
    else if strcaseEq f "dcontext" then some cdr.dcontext
    else if strcaseEq f "tenantid" then some cdr.tenantid
    else none

/-! ## `src/cdr_kafka.c`: JSON construction inside `kafka_cdr_log` -/

/-- A JSON value as produced by `kafka_cdr_log`: strings, integers and the
objects produced by `ast_json_timeval`. -/
inductive JsonVal where
  | str (s : String)
  | int (n : Int)
  | timeval (t : Timeval)
deriving DecidableEq, Repr

/-- A JSON object: ordered members with (after `ast_json_object_set`
semantics) unique names. -/
def JsonObj : Type := List (String × JsonVal)

instance : DecidableEq JsonObj := inferInstanceAs (DecidableEq (List (String × JsonVal)))

/-- Jansson's `ast_json_object_set` on the member list: replace the value
of an existing member in place, else append a new member. -/
def ast_json_object_set : JsonObj → String → JsonVal → JsonObj
  | [], k, v => [(k, v)]
  | p :: rest, k, v =>
    if p.1 = k then (k, v) :: rest
    else p :: ast_json_object_set rest k v

/-- Whether a JSON object has a member of the given name. -/
def JsonObj.hasKey (j : JsonObj) (k : String) : Bool :=
  j.any (fun p => p.1 == k)

/-- Asterisk's `ast_cdr_disp2str` (external helper, modelled from the
Asterisk core's disposition table; the claims never depend on the returned
text). -/
def ast_cdr_disp2str (d : Int) : String :=
  if d = 1 then "NO ANSWER"
  else if d = 2 then "FAILED"
  else if d = 4 then "BUSY"
  else if d = 8 then "ANSWERED"
  else if d = 16 then "CONGESTION"
  else "NO ANSWER"

/-- Asterisk's `ast_channel_amaflags2string` (external helper, modelled
from the Asterisk core; the claims never depend on the returned text). -/
def ast_channel_amaflags2string (a : Int) : String :=
  if a = 1 then "OMIT"
  else if a = 2 then "BILLING"
  else if a = 3 then "DOCUMENTATION"
  else ""

/-- The global configuration of `src/cdr_kafka.c`
(`struct cdr_kafka_global_conf`, `src/cdr_kafka.c:89`): connection name,
topic name, CDR field to use as key, and the two boolean logging flags. -/
structure CdrKafkaGlobalConf where
  connection : String
  topic : String
  key : String
  loguniqueid : Bool
  loguserfield : Bool
deriving DecidableEq, Repr

/-- Embedded from `src/cdr_kafka.c:291`–`325`: the members packed by the
`ast_json_pack` call of `kafka_cdr_log`, in pack order. -/
def cdrJsonBase (cdr : AstCdr) : JsonObj :=
  [("clid", .str cdr.clid),
   ("src", .str cdr.src),
   ("dst", .str cdr.dst),
   ("dcontext", .str cdr.dcontext),
   ("channel", .str cdr.channel),
   ("dstchannel", .str cdr.dstchannel),
   ("lastapp", .str cdr.lastapp),
   ("lastdata", .str cdr.lastdata),
   ("start", .timeval cdr.start),
   ("answer", .timeval cdr.answer),
   ("end", .timeval cdr.endTime),
   ("durationsec", .int cdr.duration),
   ("billsec", .int cdr.billsec),
   ("disposition", .str (ast_cdr_disp2str cdr.disposition)),
   ("accountcode", .str cdr.accountcode),
   ("amaflags", .str (ast_channel_amaflags2string cdr.amaflags)),
   ("peeraccount", .str cdr.peeraccount),
   ("linkedid", .str cdr.linkedid),
   ("sequence", .int cdr.sequence)]

/-- Embedded from `src/cdr_kafka.c:291`–`357`: the full JSON object built
by `kafka_cdr_log` for one CDR — the fixed members of `cdrJsonBase`, then
`EntityID`, then (when the system name is non-empty) `SystemName`, then
one member per CDR variable in `varshead`, then the optional
`uniqueid`/`userfield` members guarded by the configuration flags.
`systemName` models `ast_config_AST_SYSTEM_NAME` and `eid` the formatted
`ast_eid_default`. -/
def kafka_cdr_json (conf : CdrKafkaGlobalConf) (systemName eid : String)
    (cdr : AstCdr) : JsonObj :=
  let j1 := ast_json_object_set (cdrJsonBase cdr) "EntityID" (.str eid)
  let j2 :=
    if systemName.isEmpty then j1
    else ast_json_object_set j1 "SystemName" (.str systemName)
  let j3 := cdr.varshead.foldl
    (fun j p => ast_json_object_set j p.1 (.str p.2)) j2
  let j4 :=
    if conf.loguniqueid then
      ast_json_object_set j3 "uniqueid" (.str cdr.uniqueid)
    else j3
  if conf.loguserfield then
    ast_json_object_set j4 "userfield" (.str cdr.userfield)
  else j4

/-- `ast_json_dump_string` on the member list (compact rendering; the
claims depend only on the payload being this function of the object). -/
def JsonVal.render : JsonVal → String
  | .str s => "\"" ++ s ++ "\""
  | .int n => toString n
  | .timeval t => toString t.sec ++ "." ++ toString t.usec

/-- Rendering of a whole JSON object by `ast_json_dump_string`. -/
def ast_json_dump_string (j : JsonObj) : String :=
  "\x7b" ++
    String.intercalate ","
      (j.map (fun p => "\"" ++ p.1 ++ "\":" ++ p.2.render)) ++
  "\x7d"

/-! ## `src/cdr_kafka.c`: the CDR handler `kafka_cdr_log` -/

/-- An opaque producer handle as seen by `cdr_kafka.c` (the backend never
looks inside `struct ast_kafka_producer`). -/
structure ProducerRef where
  id : Nat
deriving DecidableEq, Repr

/-- The environment `kafka_cdr_log` runs in: the cached producer installed
by `setup_cached_producer` (`src/cdr_kafka.c:206`), the behaviour of
`ast_kafka_get_producer` for each connection name, the result code
`ast_kafka_produce` returns for a given produce call, and the system
identification strings. -/
structure CdrKafkaEnv where
  cachedProducer : Option ProducerRef
  getProducer : String → Option ProducerRef
  produceResult : ProducerRef → String → Option String → String → Int
  systemName : String
  entityId : String

/-- One produce call issued by `kafka_cdr_log`: the producer used, the
topic, the optional key and the payload handed to `ast_kafka_produce`. -/
structure ProduceCall where
  producer : ProducerRef
  topic : String
  key : Option String
  payload : String
deriving DecidableEq, Repr

/-- The visible outcome of one `kafka_cdr_log` invocation: its return
code, the produce call it issued (if it reached `ast_kafka_produce`), and
the error messages it logged. -/
structure CdrLogResult where
  code : Int
  produced : Option ProduceCall
  logs : List String
deriving DecidableEq, Repr

/-- Embedded from `src/cdr_kafka.c:270` (`kafka_cdr_log`): reference the
cached producer, falling back to `ast_kafka_get_producer` on the configured
connection when the cache is empty; on acquisition failure log an error and
return `-1`; otherwise build the JSON object, dump it, and call
`ast_kafka_produce` with the configured topic and the key extracted by
`cdr_get_key_value` from the configured field; a non-zero produce result is
logged and returned as `-1`.  Allocation failures of the JSON library
(`ast_json_pack`/`ast_json_dump_string` returning NULL) are outside the
embedding: the JSON construction is total here. -/
def kafka_cdr_log (env : CdrKafkaEnv) (conf : CdrKafkaGlobalConf)
    (cdr : AstCdr) : CdrLogResult :=
  let producerOpt : Option ProducerRef :=
    match env.cachedProducer with
    | some p => some p
    | none => env.getProducer conf.connection
  match producerOpt with
  | none => ⟨-1, none, ["Failed to get a Kafka producer"]⟩
  | some p =>
    let json := kafka_cdr_json conf env.systemName env.entityId cdr
    let str := ast_json_dump_string json
    let key := cdr_get_key_value cdr (some conf.key)
    let res := env.produceResult p conf.topic key str
    if res ≠ 0 then
      ⟨-1, some ⟨p, conf.topic, key, str⟩, ["Error publishing CDR to Kafka"]⟩
    else
      ⟨0, some ⟨p, conf.topic, key, str⟩, []⟩

/-- The return codes of a batch of CDR records processed one after the
other by the registered handler: the CDR core invokes `kafka_cdr_log` once
per record. -/
def processRecords (env : CdrKafkaEnv) (conf : CdrKafkaGlobalConf)
    (cdrs : List AstCdr) : List Int :=
  cdrs.map (fun c => (kafka_cdr_log env conf c).code)

/-! ## Claim C1: local validation of `ensure_topic_async` -/

/-- Claim C1: `ast_kafka_ensure_topic_async` validates its arguments
locally and only enqueues an AdminTask when they are valid: with an empty
topic name or non-positive partition count or non-positive replication
factor it returns `-1` and the queue is unchanged; with valid arguments and
an accepting queue it returns `0` with the task appended (no broker state
is consulted at all — success precedes any network interaction); it returns
`-1` exactly for invalid local arguments or a queue that cannot accept the
task, and whenever it returns `-1` nothing was enqueued. -/
theorem ensure_topic_async_local_validation (conn topic : String)
    (np rf : Int) (now : Nat) (q : AdminQueue) :
    ((topic = "" ∨ np ≤ 0 ∨ rf ≤ 0) →
      (ast_kafka_ensure_topic_async conn topic np rf now q).1 = -1 ∧
      (ast_kafka_ensure_topic_async conn topic np rf now q).2 = q) ∧
    (¬(topic = "" ∨ np ≤ 0 ∨ rf ≤ 0) → q.shutdown = false →
      (ast_kafka_ensure_topic_async conn topic np rf now q).1 = 0 ∧
      (ast_kafka_ensure_topic_async conn topic np rf now q).2.tasks
        = q.tasks ++ [⟨conn, topic, np, rf, now⟩]) ∧
    ((ast_kafka_ensure_topic_async conn topic np rf now q).1 = -1 ↔
      (topic = "" ∨ np ≤ 0 ∨ rf ≤ 0) ∨ q.shutdown = true) ∧
    ((ast_kafka_ensure_topic_async conn topic np rf now q).1 = -1 →
      (ast_kafka_ensure_topic_async conn topic np rf now q).2 = q) := by
  unfold ast_kafka_ensure_topic_async AdminQueue.push
  by_cases hv : topic = "" ∨ np ≤ 0 ∨ rf ≤ 0
  · simp [hv]
  · cases hs : q.shutdown <;> simp [hv, hs]

/-- Claim C1, witness: concrete instances — an empty topic is rejected
with the queue untouched, and valid arguments on a live queue are
accepted. -/
theorem ensure_topic_async_local_validation_witness :
    ((ast_kafka_ensure_topic_async "main" "" 3 1 0 ⟨[], false⟩).1 = -1 ∧
      (ast_kafka_ensure_topic_async "main" "" 3 1 0 ⟨[], false⟩).2
        = ⟨[], false⟩) ∧
    (ast_kafka_ensure_topic_async "main" "orders" 3 1 0 ⟨[], false⟩).1 = 0 := by
  refine ⟨(ensure_topic_async_local_validation "main" "" 3 1 0 ⟨[], false⟩).1
    (by decide), ?_⟩
  exact ((ensure_topic_async_local_validation "main" "orders" 3 1 0
    ⟨[], false⟩).2.1 (by decide) rfl).1

/-! ## Claim C3: empty header list behaves as `produce` -/

/-- Claim C3: for every producer state, topic, key, payload and length,
`ast_kafka_produce_hdrs` with a NULL header array (any `header_count`), or
with `header_count = 0` (any header array), yields exactly the same
outbound message, result code and successor state as `ast_kafka_produce`
with the same arguments. -/
theorem produce_hdrs_empty_eq_produce (p : ProducerState) (topic : String)
    (key : Option String) (payload : List UInt8)
    (headerCount : Nat) (hs : List AstKafkaHeader) :
    ast_kafka_produce_hdrs p topic key payload none headerCount
      = ast_kafka_produce p topic key payload ∧
    ast_kafka_produce_hdrs p topic key payload (some hs) 0
      = ast_kafka_produce p topic key payload := by
  constructor <;> rfl

/-! ## Claim C4: idempotent success of `ensure_topic` -/

/-- Claim C4: `ast_kafka_ensure_topic` succeeds both when the topic is
newly created and when it already exists: whenever the broker answers (is
reachable), two consecutive calls with the same arguments both return
success. -/
theorem ensure_topic_idempotent_success (b : BrokerState) (topic : String)
    (np rf : Int) (h : b.reachable = true) :
    (ast_kafka_ensure_topic b topic np rf).1 = 0 ∧
    (ast_kafka_ensure_topic
      (ast_kafka_ensure_topic b topic np rf).2 topic np rf).1 = 0 := by
  unfold ast_kafka_ensure_topic
  by_cases ht : topic ∈ b.topics <;> simp [h, ht]

/-- Claim C4, witness: on a reachable broker with no topics, ensuring
`orders` twice succeeds both times. -/
theorem ensure_topic_idempotent_success_witness :
    (ast_kafka_ensure_topic ⟨true, []⟩ "orders" 3 1).1 = 0 ∧
    (ast_kafka_ensure_topic
      (ast_kafka_ensure_topic ⟨true, []⟩ "orders" 3 1).2 "orders" 3 1).1 = 0 :=
  ensure_topic_idempotent_success ⟨true, []⟩ "orders" 3 1 rfl

/-! ## Claim C5: `get_consumer` fails without a group id -/

/-- Claim C5: for every connection name whose configuration has no group
id set — and likewise when no configuration entry exists for the name —
`ast_kafka_get_consumer` returns the absent value, with the registry (its
live connections included) left exactly as it was. -/
theorem get_consumer_fails_without_group_id (r : Registry) (name : String)
    (h : r.lookupConfig name = none ∨
      ∃ cfg, r.lookupConfig name = some cfg ∧ cfg.groupId = none) :
    (ast_kafka_get_consumer r name).1 = none ∧
    (ast_kafka_get_consumer r name).2 = r := by
  unfold ast_kafka_get_consumer
  rcases h with h | ⟨cfg, hc, hg⟩
  · simp [h]
  · simp [hc, hg]

/-- Claim C5, witness: a registry whose only configuration entry has no
group id — `get_consumer` on it returns the absent value and leaves the
registry unchanged. -/
theorem get_consumer_fails_without_group_id_witness :
    (ast_kafka_get_consumer
      ⟨[("main", ⟨["broker1"], "", none⟩)], []⟩ "main").1 = none ∧
    (ast_kafka_get_consumer
      ⟨[("main", ⟨["broker1"], "", none⟩)], []⟩ "main").2
      = ⟨[("main", ⟨["broker1"], "", none⟩)], []⟩ :=
  get_consumer_fails_without_group_id
    ⟨[("main", ⟨["broker1"], "", none⟩)], []⟩ "main"
    (Or.inr ⟨⟨["broker1"], "", none⟩, by decide, rfl⟩)

/-! ## Claim C6: `subscribe` fails exactly on empty parse or failed join -/

/-- Claim C6: `ast_kafka_consumer_subscribe` fails exactly when the
comma-separated topics string parses to an empty set of topic names or when
the underlying join request fails; in particular a string parsing to the
empty set is always an error. -/
theorem consumer_subscribe_error_iff (st : ConsumerState) (topics : String)
    (callbackId userdata : Nat) (joinOk : Bool) :
    ((ast_kafka_consumer_subscribe st topics callbackId userdata joinOk).1 = -1 ↔
      parseTopics topics = [] ∨ joinOk = false) ∧
    (parseTopics topics = [] →
      (ast_kafka_consumer_subscribe st topics callbackId userdata joinOk).1 = -1) := by
  unfold ast_kafka_consumer_subscribe
  by_cases hp : parseTopics topics = [] <;> cases joinOk <;> simp [hp]

/-- Claim C6, witness: the empty topics string (which parses to no topic
names) makes subscribe fail on a concrete consumer even with a succeeding
join request. -/
theorem consumer_subscribe_error_iff_witness :
    (ast_kafka_consumer_subscribe ⟨none, false⟩ "" 1 0 true).1 = -1 :=
  (consumer_subscribe_error_iff ⟨none, false⟩ "" 1 0 true).2 (by decide)

/-! ## Claim C2: re-subscribing replaces the subscription atomically -/

/-- Claim C2: after a replacing subscribe call completes on a consumer
(whatever subscription was active before), every callback invocation the
poll loop performs from then on is for a topic of the new subscription —
no callback ever fires for a topic that belongs only to the old
subscription — and messages on the new subscription's topics are delivered
to the newly registered callback and user context. -/
theorem subscribe_replaces_subscription (st0 : ConsumerState)
    (topics : String) (callbackId userdata : Nat)
    (h : (ast_kafka_consumer_subscribe st0 topics callbackId userdata true).1 = 0) :
    (∀ msgs inv,
      inv ∈ deliverAll
        (ast_kafka_consumer_subscribe st0 topics callbackId userdata true).2 msgs →
      inv.topic ∈ parseTopics topics) ∧
    (∀ m : IncomingMessage, m.topic ∈ parseTopics topics →
      deliverMessage
        (ast_kafka_consumer_subscribe st0 topics callbackId userdata true).2 m
        = [⟨callbackId, userdata, m.topic, m.partition, m.offset, m.payload, m.key⟩]) := by
  have hp : ¬ parseTopics topics = [] := by
    intro he
    simp [ast_kafka_consumer_subscribe, he] at h
  have hst : (ast_kafka_consumer_subscribe st0 topics callbackId userdata true).2
      = ⟨some ⟨parseTopics topics, callbackId, userdata⟩, true⟩ := by
    simp [ast_kafka_consumer_subscribe, hp]
  rw [hst]
  constructor
  · intro msgs inv hinv
    simp only [deliverAll, List.mem_flatMap] at hinv
    obtain ⟨m, _, hinv⟩ := hinv
    by_cases hmt : m.topic ∈ parseTopics topics
    · simp [deliverMessage, hmt] at hinv
      rw [hinv]
      exact hmt
    · simp [deliverMessage, hmt] at hinv
  · intro m hm
    simp [deliverMessage, hm]

/-- Claim C2, witness: a consumer subscribed to `a,b,c` re-subscribes to
`d`; afterwards a message on topic `a` (old subscription only) produces no
callback invocation, while a message on topic `d` is delivered with the
new callback and user context. -/
theorem subscribe_replaces_subscription_witness :
    deliverMessage
      (ast_kafka_consumer_subscribe ⟨some ⟨["a", "b", "c"], 9, 9⟩, true⟩
        "d" 1 7 true).2 ⟨"a", 0, 5, [], none⟩ = [] ∧
    deliverMessage
      (ast_kafka_consumer_subscribe ⟨some ⟨["a", "b", "c"], 9, 9⟩, true⟩
        "d" 1 7 true).2 ⟨"d", 0, 5, [], none⟩
      = [⟨1, 7, "d", 0, 5, [], none⟩] := by
  refine ⟨by decide, ?_⟩
  exact (subscribe_replaces_subscription ⟨some ⟨["a", "b", "c"], 9, 9⟩, true⟩
    "d" 1 7 (by decide)).2 ⟨"d", 0, 5, [], none⟩ (by decide)

/-! ## Concrete sample data shared by the `cdr_kafka.c` witnesses -/

/-- A concrete CDR record (the shape `build_test_cdr` in
`src/test_cdr_kafka.c` zero-initialises, with a few fields populated). -/
def sampleCdr : AstCdr :=
  { clid := "\"Test User\" <1001>"
    src := "1001"
    dst := "2001"
    dcontext := "from-internal"
    channel := "PJSIP/1001-00000001"
    dstchannel := ""
    lastapp := "Dial"
    lastdata := ""
    start := ⟨0, 0⟩
    answer := ⟨0, 0⟩
    endTime := ⟨0, 0⟩
    duration := 120
    billsec := 115
    disposition := 8
    accountcode := "acct-100"
    amaflags := 3
    peeraccount := ""
    linkedid := "1700000000.1"
    sequence := 1
    uniqueid := "1700000000.1"
    userfield := "custom-data"
    tenantid := "tenant-01"
    varshead := [] }

/-- A concrete `cdr_kafka.conf` global section with both optional-field
flags off. -/
def sampleConf : CdrKafkaGlobalConf :=
  { connection := "main"
    topic := "asterisk_cdr"
    key := ""
    loguniqueid := false
    loguserfield := false }

/-- An environment in which no producer is cached and
`ast_kafka_get_producer` fails for every connection name. -/
def envNoProducer : CdrKafkaEnv :=
  { cachedProducer := none
    getProducer := fun _ => none
    produceResult := fun _ _ _ _ => 0
    systemName := ""
    entityId := "11:22:33:44:55:66" }

/-- An environment with producer 1 cached and producing succeeding. -/
def envCached : CdrKafkaEnv :=
  { cachedProducer := some ⟨1⟩
    getProducer := fun _ => some ⟨2⟩
    produceResult := fun _ _ _ _ => 0
    systemName := ""
    entityId := "11:22:33:44:55:66" }

/-! ## Claim C7: produce failures are logged, local and non-fatal -/

/-- Claim C7: for every CDR record, when producer acquisition fails or the
produce call fails, `kafka_cdr_log` logs an error and returns `-1` for
that record; its outcome is always a plain return code (`0` or `-1`, never
an exception — the handler is a total function into result codes), and a
later record is processed independently of any earlier record's outcome
(the code returned for the record appended to a batch is exactly its own
`kafka_cdr_log` code, whatever happened before it). -/
theorem kafka_cdr_log_failure_nonfatal (env : CdrKafkaEnv)
    (conf : CdrKafkaGlobalConf) (cdr : AstCdr) :
    (env.cachedProducer = none → env.getProducer conf.connection = none →
      (kafka_cdr_log env conf cdr).code = -1 ∧
      (kafka_cdr_log env conf cdr).logs ≠ []) ∧
    (∀ p : ProducerRef,
      (env.cachedProducer = some p ∨
        (env.cachedProducer = none ∧ env.getProducer conf.connection = some p)) →
      env.produceResult p conf.topic (cdr_get_key_value cdr (some conf.key))
        (ast_json_dump_string
          (kafka_cdr_json conf env.systemName env.entityId cdr)) ≠ 0 →
      (kafka_cdr_log env conf cdr).code = -1 ∧
      (kafka_cdr_log env conf cdr).logs ≠ []) ∧
    ((kafka_cdr_log env conf cdr).code = 0 ∨
      (kafka_cdr_log env conf cdr).code = -1) ∧
    (∀ cdrs, processRecords env conf (cdrs ++ [cdr])
      = processRecords env conf cdrs ++ [(kafka_cdr_log env conf cdr).code]) := by
  refine ⟨?_, ?_, ?_, ?_⟩
  · intro hc hg
    simp [kafka_cdr_log, hc, hg]
  · rintro p (hp | ⟨hc, hg⟩) hres
    · simp [kafka_cdr_log, hp, hres]
    · simp [kafka_cdr_log, hc, hg, hres]
  · unfold kafka_cdr_log
    rcases env.cachedProducer with _ | p
    · rcases hg : env.getProducer conf.connection with _ | p
      · simp
      · simp only []
        split <;> simp
    · simp only []
      split <;> simp
  · intro cdrs
    simp [processRecords]

/-- Claim C7, witness: in an environment where producer acquisition fails,
a concrete record gets code `-1` with an error logged. -/
theorem kafka_cdr_log_failure_nonfatal_witness :
    (kafka_cdr_log envNoProducer sampleConf sampleCdr).code = -1 ∧
    (kafka_cdr_log envNoProducer sampleConf sampleCdr).logs ≠ [] :=
  (kafka_cdr_log_failure_nonfatal envNoProducer sampleConf sampleCdr).1 rfl rfl

/-! ## Claim C10: cached producer first, fallback acquisition second -/

/-- Claim C10: `kafka_cdr_log` uses the cached producer whenever one is
installed (its produce call then uses exactly that producer, and the
outcome is independent of what `ast_kafka_get_producer` would return);
only with an empty cache does it fall back to `ast_kafka_get_producer` on
the configured connection (whose producer its produce call then uses); and
it returns `-1` without issuing any produce call exactly when the cache is
empty and the fallback acquisition also returns the absent value. -/
theorem kafka_cdr_log_producer_selection (env : CdrKafkaEnv)
    (conf : CdrKafkaGlobalConf) (cdr : AstCdr) :
    (∀ p : ProducerRef, env.cachedProducer = some p →
      (∀ g, kafka_cdr_log { env with getProducer := g } conf cdr
        = kafka_cdr_log env conf cdr) ∧
      ∃ call, (kafka_cdr_log env conf cdr).produced = some call ∧
        call.producer = p) ∧
    (env.cachedProducer = none →
      ∀ p : ProducerRef, env.getProducer conf.connection = some p →
      ∃ call, (kafka_cdr_log env conf cdr).produced = some call ∧
        call.producer = p) ∧
    (((kafka_cdr_log env conf cdr).code = -1 ∧
        (kafka_cdr_log env conf cdr).produced = none) ↔
      (env.cachedProducer = none ∧
        env.getProducer conf.connection = none)) := by
  refine ⟨?_, ?_, ?_⟩
  · intro p hp
    constructor
    · intro g
      simp [kafka_cdr_log, hp]
    · unfold kafka_cdr_log
      simp only [hp]
      split <;> exact ⟨_, rfl, rfl⟩
  · intro hc p hg
    unfold kafka_cdr_log
    simp only [hc, hg]
    split <;> exact ⟨_, rfl, rfl⟩
  · constructor
    · intro ⟨hcode, hprod⟩
      unfold kafka_cdr_log at hprod
      rcases hc : env.cachedProducer with _ | p
      · rcases hg : env.getProducer conf.connection with _ | p
        · exact ⟨rfl, rfl⟩
        · rw [hc, hg] at hprod
          simp only [] at hprod
          split at hprod <;> simp at hprod
      · rw [hc] at hprod
        simp only [] at hprod
        split at hprod <;> simp at hprod
    · intro ⟨hc, hg⟩
      simp [kafka_cdr_log, hc, hg]

/-- Claim C10, witness: with the cache and the fallback both empty,
`kafka_cdr_log` on a concrete record returns `-1` having issued no produce
call. -/
theorem kafka_cdr_log_producer_selection_witness :
    (kafka_cdr_log envNoProducer sampleConf sampleCdr).code = -1 ∧
    (kafka_cdr_log envNoProducer sampleConf sampleCdr).produced = none :=
  (kafka_cdr_log_producer_selection envNoProducer sampleConf
    sampleCdr).2.2.mpr ⟨rfl, rfl⟩

/-! ## Claim C8: the key-extraction lookup table -/

/-- Restatement of claim C8's description of `cdr_get_key_value`, written
from the claim's words for comparison against the embedded source
function: `none` exactly for a NULL, empty, or unrecognised field name
(compared case-insensitively against the nine known names), otherwise the
value of the matching CDR field. -/
def cdrKeyValueClaim (cdr : AstCdr) (field_name : Option String) :
    Option String :=
  match field_name with
  | none => none
  | some s =>
    if s.isEmpty then none
    else if strLower s = "linkedid" then some cdr.linkedid
    else if strLower s = "uniqueid" then some cdr.uniqueid
    else if strLower s = "channel" then some cdr.channel
    else if strLower s = "dstchannel" then some cdr.dstchannel
    else if strLower s = "accountcode" then some cdr.accountcode
    else if strLower s = "src" then some cdr.src
    else if strLower s = "dst" then some cdr.dst
    else if strLower s = "dcontext" then some cdr.dcontext
    else if strLower s = "tenantid" then some cdr.tenantid
    else none

/-- Claim C8: for every CDR record and field name, `cdr_get_key_value`
returns `none` exactly when the field name is NULL, empty, or not one of
the nine known field names compared case-insensitively, and otherwise
returns the value of the matching CDR field — i.e. the embedded source
function coincides with the claim's lookup table on all inputs.  (The
embedding is a pure function of the record, so the CDR is never
modified.) -/
theorem cdr_get_key_value_matches_claim (cdr : AstCdr)
    (field_name : Option String) :
    cdr_get_key_value cdr field_name = cdrKeyValueClaim cdr field_name := by
  cases field_name with
  | none => rfl
  | some s =>
    simp [cdr_get_key_value, cdrKeyValueClaim, ast_strlen_zero, strcaseEq,
      show strLower "linkedid" = "linkedid" from by decide,
      show strLower "uniqueid" = "uniqueid" from by decide,
      show strLower "channel" = "channel" from by decide,
      show strLower "dstchannel" = "dstchannel" from by decide,
      show strLower "accountcode" = "accountcode" from by decide,
      show strLower "src" = "src" from by decide,
      show strLower "dst" = "dst" from by decide,
      show strLower "dcontext" = "dcontext" from by decide,
      show strLower "tenantid" = "tenantid" from by decide]

/-! ## Claim C9: membership of the published JSON object -/

/-- `ast_json_object_set` makes the given name a member and preserves all
existing members. -/
theorem hasKey_object_set (j : JsonObj) (k : String) (v : JsonVal)
    (q : String) :
    (ast_json_object_set j k v).hasKey q = (k == q || j.hasKey q) := by
  induction j with
  | nil => simp [ast_json_object_set, JsonObj.hasKey]
  | cons p rest ih =>
    simp only [ast_json_object_set]
    by_cases hp : p.1 = k
    · simp only [hp, if_pos rfl, JsonObj.hasKey, List.any_cons]
      cases hk : (k == q) <;> simp [hk]
    · simp only [if_neg hp, JsonObj.hasKey, List.any_cons] at ih ⊢
      rw [ih]
      cases hk : (k == q) <;> cases hq : (p.1 == q) <;> simp [hk, hq]

/-- Folding the CDR variable list through `ast_json_object_set` makes a
name a member exactly when it already was one or a variable bears it. -/
theorem hasKey_fold_vars (vars : List (String × String)) (j : JsonObj)
    (q : String) :
    ((vars.foldl (fun acc p => ast_json_object_set acc p.1 (.str p.2)) j).hasKey q)
      = (j.hasKey q || vars.any (fun p => p.1 == q)) := by
  induction vars generalizing j with
  | nil => simp
  | cons p rest ih =>
    simp only [List.foldl_cons, List.any_cons]
    rw [ih, hasKey_object_set]
    cases h1 : (p.1 == q) <;> cases h2 : (j.hasKey q) <;> simp [h1, h2]

/-- The names of the members `kafka_cdr_log` always packs into the JSON
object, independent of the optional-field flags. -/
def fixedCdrJsonKeys : List String :=
  ["clid", "src", "dst", "dcontext", "channel", "dstchannel", "lastapp",
   "lastdata", "start", "answer", "end", "durationsec", "billsec",
   "disposition", "accountcode", "amaflags", "peeraccount", "linkedid",
   "sequence", "EntityID"]

/-- Claim C9, counterexample: the claim's "only if" direction fails — with
`loguniqueid` off, a CDR whose variable list carries a variable named
`uniqueid` still yields a JSON object with a `uniqueid` member, because
`kafka_cdr_log` copies every CDR variable into the object. -/
theorem cdr_json_uniqueid_without_flag :
    sampleConf.loguniqueid = false ∧
    (kafka_cdr_json sampleConf "" "11:22:33:44:55:66"
        { sampleCdr with varshead := [("uniqueid", "injected")] }).hasKey
      "uniqueid" = true := by
  constructor
  · rfl
  · decide

/-- Every name in `fixedCdrJsonKeys` is either `EntityID` or already a
member of the packed base object. -/
theorem hasKey_base_fixed (cdr : AstCdr) :
    ∀ k ∈ fixedCdrJsonKeys,
      k = "EntityID" ∨ (cdrJsonBase cdr).hasKey k = true := by
  intro k hk
  fin_cases hk <;> simp [cdrJsonBase, JsonObj.hasKey]

/-- Claim C9 as amended: the published JSON object has a `uniqueid` member
iff the `loguniqueid` flag is set or a CDR variable named `uniqueid`
exists, and a `userfield` member iff the `loguserfield` flag is set or a
CDR variable named `userfield` exists; the twenty fixed members are
present regardless of the flags. -/
theorem cdr_json_member_characterisation (conf : CdrKafkaGlobalConf)
    (systemName eid : String) (cdr : AstCdr) :
    ((kafka_cdr_json conf systemName eid cdr).hasKey "uniqueid" = true ↔
      conf.loguniqueid = true ∨
        cdr.varshead.any (fun p => p.1 == "uniqueid") = true) ∧
    ((kafka_cdr_json conf systemName eid cdr).hasKey "userfield" = true ↔
      conf.loguserfield = true ∨
        cdr.varshead.any (fun p => p.1 == "userfield") = true) ∧
    (∀ k ∈ fixedCdrJsonKeys,
      (kafka_cdr_json conf systemName eid cdr).hasKey k = true) := by
  have hbu : (cdrJsonBase cdr).hasKey "uniqueid" = false := rfl
  have hbf : (cdrJsonBase cdr).hasKey "userfield" = false := rfl
  unfold kafka_cdr_json
  refine ⟨?_, ?_, ?_⟩
  · cases hu : conf.loguniqueid <;> cases hf : conf.loguserfield <;>
      cases hs : systemName.isEmpty <;>
        simp [hu, hf, hs, hasKey_object_set, hasKey_fold_vars, hbu]
  · cases hu : conf.loguniqueid <;> cases hf : conf.loguserfield <;>
      cases hs : systemName.isEmpty <;>
        simp [hu, hf, hs, hasKey_object_set, hasKey_fold_vars, hbf]
  · intro k hk
    rcases hasKey_base_fixed cdr k hk with he | hb
    · subst he
      cases hu : conf.loguniqueid <;> cases hf : conf.loguserfield <;>
        cases hs : systemName.isEmpty <;>
          simp [hu, hf, hs, hasKey_object_set, hasKey_fold_vars]
    · cases hu : conf.loguniqueid <;> cases hf : conf.loguserfield <;>
        cases hs : systemName.isEmpty <;>
          simp [hu, hf, hs, hasKey_object_set, hasKey_fold_vars, hb]

/-- Claim C9 (amended), witness: on the concrete record and configuration
(flags off, no variables) the `uniqueid` member is absent, and making the
flag true puts it there; the fixed member `clid` is present. -/
theorem cdr_json_member_characterisation_witness :
    (kafka_cdr_json { sampleConf with loguniqueid := true } ""
        "11:22:33:44:55:66" sampleCdr).hasKey "uniqueid" = true ∧
    (kafka_cdr_json sampleConf "" "11:22:33:44:55:66" sampleCdr).hasKey
        "clid" = true := by
  constructor
  · exact (cdr_json_member_characterisation
      { sampleConf with loguniqueid := true } "" "11:22:33:44:55:66"
      sampleCdr).1.mpr (Or.inl rfl)
  · exact (cdr_json_member_characterisation sampleConf ""
      "11:22:33:44:55:66" sampleCdr).2.2 "clid" (by decide)
